import Mathlib

/-!
Verification of the KaTeX renderer module (`manim/utils/katex_renderer.py`).

The module is embedded shallowly:

* Pure string computations (`katex_hash`, the cache key, the expression
  processing, the SVG post-processing regexes) are translated to executable
  Lean functions over `String` / `List Char`.
* `hashlib.sha256` is embedded as a full executable SHA-256 (FIPS 180-4)
  over byte lists (`Nat` values `< 256`), and `str.encode()` as UTF-8
  encoding of the character list.
* Effectful boundaries (subprocess runs, `tex_to_svg_file`, file reads) are
  oracles supplied in a `RenderExt` record; a call may succeed with a value
  or raise a Python exception (`Except PyExc`).
* The filesystem is a record `FS` of a directory predicate and a partial map
  from paths to file contents; `katex_to_svg_file` is a function from the
  oracle record, the configured tex directory and an `FS` to a result, the
  final `FS`, and a trace of the external calls it made.
* Python regular-expression substitutions (`re.sub`) are embedded as
  left-to-right, leftmost-match, non-overlapping scanners specialised to the
  five concrete patterns of `_improve_svg_for_manim`.
-/

/-! ## Python string primitives -/

/-- Python `\s` / `str.strip()` whitespace: space, tab, newline, carriage
return, vertical tab, form feed. -/
def isPySpace (c : Char) : Bool :=
  c == ' ' || c == '\t' || c == '\n' || c == '\r' || c == '\x0b' || c == '\x0c'

/-- Python `str.strip()`: drop leading and trailing whitespace. -/
def pyStrip (s : String) : String :=
  ⟨((s.toList.dropWhile isPySpace).reverse.dropWhile isPySpace).reverse⟩

/-- Python `s.startswith(pre)`. -/
def pyStartswith (pre s : String) : Bool :=
  pre.toList.isPrefixOf s.toList

/-- Python `needle in hay` on strings: substring containment. -/
def strContains (hay needle : String) : Bool :=
  go needle.toList hay.toList
where
  go (n : List Char) : List Char → Bool
    | [] => n.isPrefixOf []
    | c :: cs => n.isPrefixOf (c :: cs) || go n cs

/-- UTF-8 encoding of one character, as Python `str.encode()` produces it. -/
def encodeChar (c : Char) : List Nat :=
  let n := c.toNat
  if n < 0x80 then [n]
  else if n < 0x800 then [0xC0 + n / 64, 0x80 + n % 64]
  else if n < 0x10000 then [0xE0 + n / 4096, 0x80 + (n / 64) % 64, 0x80 + n % 64]
  else [0xF0 + n / 262144, 0x80 + (n / 4096) % 64, 0x80 + (n / 64) % 64, 0x80 + n % 64]

/-- The byte list of Python `s.encode()`. -/
def strBytes (s : String) : List Nat :=
  s.toList.foldr (fun c acc => encodeChar c ++ acc) []

/-! ## SHA-256 (the `hashlib.sha256` the module calls), FIPS 180-4 -/

/-- Right rotation of a 32-bit word. -/
def rotr32 (n x : Nat) : Nat :=
  ((x >>> n) ||| (x <<< (32 - n))) % 4294967296

/-- The 64 SHA-256 round constants. -/
def sha256K : List Nat :=
  [1116352408, 1899447441, 3049323471, 3921009573, 961987163,
   1508970993, 2453635748, 2870763221, 3624381080, 310598401,
   607225278, 1426881987, 1925078388, 2162078206, 2614888103,
   3248222580, 3835390401, 4022224774, 264347078, 604807628,
   770255983, 1249150122, 1555081692, 1996064986, 2554220882,
   2821834349, 2952996808, 3210313671, 3336571891, 3584528711,
   113926993, 338241895, 666307205, 773529912, 1294757372,
   1396182291, 1695183700, 1986661051, 2177026350, 2456956037,
   2730485921, 2820302411, 3259730800, 3345764771, 3516065817,
   3600352804, 4094571909, 275423344, 430227734, 506948616,
   659060556, 883997877, 958139571, 1322822218, 1537002063,
   1747873779, 1955562222, 2024104815, 2227730452, 2361852424,
   2428436474, 2756734187, 3204031479, 3329325298]

/-- The initial SHA-256 hash state. -/
def sha256H0 : List Nat :=
  [1779033703, 3144134277, 1013904242, 2773480762,
   1359893119, 2600822924, 528734635, 1541459225]

/-- The next word of the message schedule, from the words produced so far. -/
def schedWord (w : List Nat) : Nat :=
  let n := w.length
  let a := w.getD (n - 15) 0
  let b := w.getD (n - 2) 0
  let s0 := (rotr32 7 a) ^^^ (rotr32 18 a) ^^^ (a >>> 3)
  let s1 := (rotr32 17 b) ^^^ (rotr32 19 b) ^^^ (b >>> 10)
  (w.getD (n - 16) 0 + s0 + w.getD (n - 7) 0 + s1) % 4294967296

/-- Extend the message schedule by `k` further words. -/
def extendSched : Nat → List Nat → List Nat
  | 0, w => w
  | k + 1, w => extendSched k (w ++ [schedWord w])

/-- One SHA-256 compression round on the eight-word working state. -/
def sha256Round (st : List Nat) (kw : Nat × Nat) : List Nat :=
  let a := st.getD 0 0
  let b := st.getD 1 0
  let c := st.getD 2 0
  let d := st.getD 3 0
  let e := st.getD 4 0
  let f := st.getD 5 0
  let g := st.getD 6 0
  let h := st.getD 7 0
  let s1 := (rotr32 6 e) ^^^ (rotr32 11 e) ^^^ (rotr32 25 e)
  let ch := (e &&& f) ^^^ ((e ^^^ 0xffffffff) &&& g)
  let temp1 := (h + s1 + ch + kw.1 + kw.2) % 4294967296
  let s0 := (rotr32 2 a) ^^^ (rotr32 13 a) ^^^ (rotr32 22 a)
  let maj := (a &&& b) ^^^ (a &&& c) ^^^ (b &&& c)
  let temp2 := (s0 + maj) % 4294967296
  [(temp1 + temp2) % 4294967296, a, b, c, (d + temp1) % 4294967296, e, f, g]

/-- Big-endian 32-bit words from a byte list (4 bytes per word). -/
def bytesToWords : List Nat → List Nat
  | b0 :: b1 :: b2 :: b3 :: rest =>
      (b0 * 16777216 + b1 * 65536 + b2 * 256 + b3) :: bytesToWords rest
  | _ => []

/-- Big-endian bytes of a 32-bit word. -/
def wordBytes (w : Nat) : List Nat :=
  [w / 16777216 % 256, w / 65536 % 256, w / 256 % 256, w % 256]

/-- Compress one 16-word chunk into the hash state. -/
def sha256Chunk (h : List Nat) (chunk : List Nat) : List Nat :=
  let w := extendSched 48 chunk
  let st := (sha256K.zip w).foldl sha256Round h
  (h.zip st).map (fun p => (p.1 + p.2) % 4294967296)

/-- Split into 64-byte chunks (already converted to words per chunk);
`fuel` bounds the recursion, `msg.length` is always enough. -/
def splitChunks : Nat → List Nat → List (List Nat)
  | 0, _ => []
  | _, [] => []
  | fuel + 1, l => bytesToWords (l.take 64) :: splitChunks fuel (l.drop 64)

/-- The big-endian 8-byte encoding of the bit length. -/
def lengthBytes (len : Nat) : List Nat :=
  let bits := len * 8
  [bits / 72057594037927936 % 256, bits / 281474976710656 % 256,
   bits / 1099511627776 % 256, bits / 4294967296 % 256,
   bits / 16777216 % 256, bits / 65536 % 256, bits / 256 % 256, bits % 256]

/-- SHA-256 of a byte list: the 32-byte digest. -/
def sha256 (msg : List Nat) : List Nat :=
  let padZeros := (119 - msg.length % 64) % 64
  let padded := msg ++ [0x80] ++ List.replicate padZeros 0 ++ lengthBytes msg.length
  let hFinal := (splitChunks padded.length padded).foldl sha256Chunk sha256H0
  hFinal.foldr (fun w acc => wordBytes w ++ acc) []

/-- Lowercase hex character of a value below 16. -/
def hexChar (n : Nat) : Char :=
  if n < 10 then Char.ofNat (48 + n) else Char.ofNat (87 + n)

/-- `hexdigest()`: lowercase hex string of a byte list. -/
def hexdigest (bytes : List Nat) : String :=
  ⟨bytes.foldr (fun b acc => hexChar (b / 16) :: hexChar (b % 16) :: acc) []⟩

/-! ## The cache-key hash (`katex_hash`) and cache key -/

/-- Embeds `katex_hash`: `hashlib.sha256(str(expression).encode()).hexdigest()[:16]`
(`str` is the identity on the string argument). -/
def katex_hash (expression : String) : String :=
  (hexdigest (sha256 (strBytes expression))).take 16

/-- Python `f"{environment}"` for an `Optional[str]`: `None` prints as "None". -/
def pyStrOfEnv : Option String → String
  | none => "None"
  | some s => s

/-- The cache key `f"{expression}_{environment}_{kwargs}"`; `kwargs` is
carried as the string Python's f-string renders the keyword-argument dict to. -/
def cacheKey (expression : String) (environment : Option String) (kwargs : String) : String :=
  expression ++ "_" ++ pyStrOfEnv environment ++ "_" ++ kwargs

/-! ## The effect model: Python exceptions, subprocess outcomes, filesystem -/

/-- A raised Python exception, by class. -/
inductive PyExc where
  | runtimeError (msg : String)
  | valueError (msg : String)
  | other (msg : String)
deriving DecidableEq

/-- The two `subprocess` exceptions the module catches. -/
inductive SubprocErr where
  | timeoutExpired
  | fileNotFound
deriving DecidableEq

/-- A completed `subprocess.run` result. -/
structure NodeResult where
  returncode : Int
  stdout : String
  stderr : String
deriving DecidableEq

/-- The external world the renderer touches, as oracles fixed for a run:
the two probe subprocesses of `ensure_katex_available`, the original LaTeX
pipeline `tex_to_svg_file` (returning a path or raising), and reading a file
(`open(path).read()`, returning contents or raising). -/
structure RenderExt where
  nodeVersion : Except SubprocErr NodeResult
  katexCheck : Except SubprocErr NodeResult
  texToSvgFile : String → Except PyExc String
  readFile : String → Except PyExc String

/-- The filesystem: which directories exist, and the contents at each path. -/
structure FS where
  dirs : String → Bool
  files : String → Option String

/-- Trace entries: the external calls `katex_to_svg_file` can make. -/
inductive Call where
  | ensureKatexAvailable
  | texToSvgFile (arg : String)
  | katexToSvgViaMathjax (arg : String)
deriving DecidableEq

/-! ## `ensure_katex_available` -/

/-- Embeds `ensure_katex_available`: probes `node --version`, then a
`node -e` KaTeX require; `TimeoutExpired` / `FileNotFoundError` give `False`. -/
def ensure_katex_available (nodeVersion katexCheck : Except SubprocErr NodeResult) : Bool :=
  match nodeVersion with
  | .error _ => false
  | .ok result =>
    if result.returncode ≠ 0 then false
    else
      match katexCheck with
      | .error _ => false
      | .ok result2 => result2.returncode == 0

/-! ## `_process_expression_for_katex` -/

/-- Embeds `_process_expression_for_katex`: branches on the environment
(`None` / `"align*"` / `"equation*"`, `"center"`, anything else — the last
branch only logs a warning), returning the expression in each branch. -/
def _process_expression_for_katex (expression : String) (environment : Option String) : String :=
  match environment with
  | none => expression
  | some env =>
    if env = "align*" ∨ env = "equation*" then expression
    else if env = "center" then expression
    else expression

/-! ## `_render_katex_to_svg` -/

/-- The hand-drawn rectangle placeholder returned when the LaTeX fallback
fails (raises), verbatim from the module. -/
def fallbackRectSVG : String :=
  "<?xml version='1.0' encoding='UTF-8'?>
<svg xmlns='http://www.w3.org/2000/svg' width='100pt' height='20pt' viewBox='0 0 100 20'>
<path d='M10 5 L90 5 L90 15 L10 15 Z' stroke='black' stroke-width='1' fill='none'/>
<path d='M15 10 L85 10' stroke='black' stroke-width='0.5'/>
</svg>"

/-- The `math_expression` local of `_render_katex_to_svg`: wrap in `$...$`
unless the expression starts with `$` or `\begin`. -/
def mathExprOf (expression : String) : String :=
  if !(pyStartswith "$" expression || pyStartswith "\\begin" expression) then
    "$" ++ expression ++ "$"
  else
    expression

/-- Embeds `_render_katex_to_svg`: runs `tex_to_svg_file` on the wrapped
expression and reads the produced file; any exception in the `try` block is
caught and the rectangle placeholder returned. Also returns the trace of
external calls made. -/
def _render_katex_to_svg (ext : RenderExt) (expression : String) : String × List Call :=
  let math_expression := mathExprOf expression
  match ext.texToSvgFile math_expression with
  | .ok svg_path =>
    match ext.readFile svg_path with
    | .ok content => (content, [.texToSvgFile math_expression])
    | .error _ => (fallbackRectSVG, [.texToSvgFile math_expression])
  | .error _ => (fallbackRectSVG, [.texToSvgFile math_expression])

/-! ## `katex_to_svg_file` -/

/-- The `RuntimeError` message raised when Node.js or KaTeX are unavailable. -/
def katexUnavailableMsg : String :=
  "KaTeX renderer requires Node.js and KaTeX to be installed. Install them with: npm install -g katex"

/-- The cached SVG path: `tex_dir / (katex_hash(cache_key) + ".svg")`. -/
def svgFilePath (texDir expression : String) (environment : Option String) (kwargs : String) : String :=
  texDir ++ "/" ++ katex_hash (cacheKey expression environment kwargs) ++ ".svg"

/-- Embeds `katex_to_svg_file`: raises `RuntimeError` when the availability
probe fails; otherwise creates the tex directory if missing, returns the
cached path on a cache hit, and on a miss renders via `_render_katex_to_svg`
and writes the SVG. Returns (result, final filesystem, call trace). -/
def katex_to_svg_file (ext : RenderExt) (texDir : String) (fs : FS)
    (expression : String) (environment : Option String) (kwargs : String) :
    Except PyExc String × FS × List Call :=
  if ensure_katex_available ext.nodeVersion ext.katexCheck = false then
    (.error (.runtimeError katexUnavailableMsg), fs, [.ensureKatexAvailable])
  else
    let cache_key := cacheKey expression environment kwargs
    let fs1 := if fs.dirs texDir then fs else { fs with dirs := fun d => d == texDir || fs.dirs d }
    let svg_file := texDir ++ "/" ++ katex_hash cache_key ++ ".svg"
    match fs1.files svg_file with
    | some _ => (.ok svg_file, fs1, [.ensureKatexAvailable])
    | none =>
      let processed_expression := _process_expression_for_katex expression environment
      let rendered := _render_katex_to_svg ext processed_expression
      (.ok svg_file,
       { fs1 with files := fun p => if p == svg_file then some rendered.1 else fs1.files p },
       .ensureKatexAvailable :: rendered.2)

/-! ## `re.sub` scanners for `_improve_svg_for_manim`

Python's `re.sub` replaces leftmost, non-overlapping matches scanning left to
right and continuing after each replacement.  The five patterns of
`_improve_svg_for_manim` are deterministic (no backtracking can succeed where
maximal munch fails), so each is embedded as a scanner: a matcher tried at
every position, a fixed-shape one (`reSubP`, a list of character predicates)
for `fill="#......"` and `stroke-width="1"`, a procedural one (`reSub`) for
the variable-length patterns. -/

/-- A fixed-shape pattern matches at the head: every predicate holds and the
list is long enough. -/
def patMatch : List (Char → Bool) → List Char → Bool
  | [], _ => true
  | _ :: _, [] => false
  | f :: fs, c :: cs => f c && patMatch fs cs

/-- A fixed-shape pattern is compatible with a list head: every predicate
holds as far as both are defined (the list may end early). -/
def patCompat : List (Char → Bool) → List Char → Bool
  | [], _ => true
  | _ :: _, [] => true
  | f :: fs, c :: cs => f c && patCompat fs cs

/-- The literal pattern of a string. -/
def litPat (s : String) : List (Char → Bool) :=
  s.toList.map (fun c => fun x => c == x)

/-- Whether the pattern matches at some position of the list. -/
def occursPatB (p : List (Char → Bool)) : List Char → Bool
  | [] => patMatch p []
  | c :: cs => patMatch p (c :: cs) || occursPatB p cs

/-- `re.sub` for a fixed-shape pattern: replace each leftmost,
non-overlapping match by `rep`.  `fuel` bounds the recursion; the input
length is always enough fuel. -/
def reSubP (p : List (Char → Bool)) (rep : List Char) : Nat → List Char → List Char
  | 0, l => l
  | _ + 1, [] => []
  | fuel + 1, c :: cs =>
    if patMatch p (c :: cs) then rep ++ reSubP p rep fuel (List.drop p.length (c :: cs))
    else c :: reSubP p rep fuel cs

/-- `re.sub` for a matcher that returns the replacement and the rest after
the match (always consuming at least one character). -/
def reSub (m : List Char → Option (List Char × List Char)) : Nat → List Char → List Char
  | 0, l => l
  | _ + 1, [] => []
  | fuel + 1, c :: cs =>
    match m (c :: cs) with
    | some (rep, rest) => rep ++ reSub m fuel rest
    | none => c :: reSub m fuel cs

/-- The string literal is a prefix of the character list. -/
def litMatch (s : String) (l : List Char) : Bool :=
  s.toList.isPrefixOf l

/-- Python regex `[0-9A-Fa-f]`. -/
def isHexChar (c : Char) : Bool :=
  (48 ≤ c.toNat && c.toNat ≤ 57) || (97 ≤ c.toNat && c.toNat ≤ 102)
    || (65 ≤ c.toNat && c.toNat ≤ 70)

/-- Drop everything up to and including the first occurrence of the literal;
`none` when it never occurs (the non-greedy `.*?literal` step). -/
def skipPast (s : String) : List Char → Option (List Char)
  | [] => none
  | c :: cs => if litMatch s (c :: cs) then some ((c :: cs).drop s.length) else skipPast s cs

/-- Matcher for `<title[^>]*>.*?</title>` (DOTALL), replaced by the empty
string: the literal `<title`, a maximal run of non-`>` characters, `>`, then
the shortest stretch ending in `</title>`. -/
def m1 (l : List Char) : Option (List Char × List Char) :=
  if litMatch "<title" l then
    let r1 := l.drop 6
    let attrs := r1.takeWhile (fun c => !(c == '>'))
    match r1.drop attrs.length with
    | [] => none
    | _ :: body => (skipPast "</title>" body).map (fun rest => ([], rest))
  else none

/-- Matcher for `\s+stroke="currentColor"\s+fill="currentColor"`, replaced by
the empty string (the `\s+` runs are maximal; the following literals start
with non-space characters, so maximal munch is exact). -/
def m2 (l : List Char) : Option (List Char × List Char) :=
  let ws1 := l.takeWhile isPySpace
  if ws1.isEmpty then none
  else
    let r1 := l.drop ws1.length
    if litMatch "stroke=\"currentColor\"" r1 then
      let r2 := r1.drop 21
      let ws2 := r2.takeWhile isPySpace
      if ws2.isEmpty then none
      else
        let r3 := r2.drop ws2.length
        if litMatch "fill=\"currentColor\"" r3 then some ([], r3.drop 19) else none
    else none

/-- Matcher for `<g\s+stroke="currentColor"\s+fill="currentColor"`, replaced
by `<g`. -/
def m3 (l : List Char) : Option (List Char × List Char) :=
  if litMatch "<g" l then
    let r1 := l.drop 2
    let ws1 := r1.takeWhile isPySpace
    if ws1.isEmpty then none
    else
      let r2 := r1.drop ws1.length
      if litMatch "stroke=\"currentColor\"" r2 then
        let r3 := r2.drop 21
        let ws2 := r3.takeWhile isPySpace
        if ws2.isEmpty then none
        else
          let r4 := r3.drop ws2.length
          if litMatch "fill=\"currentColor\"" r4 then some ("<g".toList, r4.drop 19) else none
      else none
  else none

/-- Pattern for `fill="#[0-9A-Fa-f]{6}"`. -/
def patFill : List (Char → Bool) :=
  litPat "fill=\"#" ++ List.replicate 6 isHexChar ++ litPat "\""

/-- Replacement `fill="white"`. -/
def fillRep : List Char := "fill=\"white\"".toList

/-- Pattern for the literal `stroke-width="1"`. -/
def patSW1 : List (Char → Bool) := litPat "stroke-width=\"1\""

/-- Replacement `stroke-width="2"`. -/
def sw2Rep : List Char := "stroke-width=\"2\"".toList

/-- Embeds `_improve_svg_for_manim`: the five `re.sub` passes in source
order — drop `<title...>...</title>`, drop `\s+stroke="currentColor"\s+fill=
"currentColor"`, rewrite `<g` with those attributes to `<g`, recolour
`fill="#RRGGBB"` to `fill="white"`, and widen `stroke-width="1"` to `"2"`. -/
def _improve_svg_for_manim (svg_content : String) : String :=
  let l0 := svg_content.toList
  let l1 := reSub m1 l0.length l0
  let l2 := reSub m2 l1.length l1
  let l3 := reSub m3 l2.length l2
  let l4 := reSubP patFill fillRep l3.length l3
  let l5 := reSubP patSW1 sw2Rep l4.length l4
  ⟨l5⟩

/-! ## `_create_simple_math_svg` and `_katex_to_svg_via_mathjax` -/

/-- The hardcoded SVG for the exact expression "E = mc^2", verbatim. -/
def svgEmc2 : String :=
  "<?xml version='1.0' encoding='UTF-8'?>
<!-- Generated by KaTeX renderer -->
<svg version='1.1' xmlns='http://www.w3.org/2000/svg' xmlns:xlink='http://www.w3.org/1999/xlink' width='38.241975pt' height='8.607754pt' viewBox='152.485491 -12.194341 38.241975 8.607754'>

<defs>
<path id='g0-69' d='M7.053549-2.321295C7.073474-2.371108 7.103362-2.440847 7.103362-2.460772C7.103362-2.470735 7.103362-2.570361 6.983811-2.570361C6.894147-2.570361 6.874222-2.510585 6.854296-2.450809C6.206725-.976339 5.838107-.308842 4.134496-.308842H2.67995C2.540473-.308842 2.520548-.308842 2.460772-.318804C2.361146-.328767 2.331258-.33873 2.331258-.418431C2.331258-.448319 2.331258-.468244 2.381071-.647572L3.058531-3.367372H4.044832C4.891656-3.367372 4.891656-3.158157 4.891656-2.909091C4.891656-2.839352 4.891656-2.719801 4.821918-2.420922C4.801993-2.371108 4.79203-2.34122 4.79203-2.311333C4.79203-2.261519 4.83188-2.201743 4.921544-2.201743C5.001245-2.201743 5.031133-2.251557 5.070984-2.400996L5.638854-4.732254C5.638854-4.79203 5.589041-4.841843 5.519303-4.841843C5.429639-4.841843 5.409714-4.782067 5.379826-4.662516C5.17061-3.905355 4.991283-3.676214 4.07472-3.676214H3.138232L3.73599-6.07721C3.825654-6.425903 3.835616-6.465753 4.273973-6.465753H5.678705C6.894147-6.465753 7.193026-6.176837 7.193026-5.3599C7.193026-5.120797 7.193026-5.100872 7.153176-4.83188C7.153176-4.772105 7.143213-4.702366 7.143213-4.652553S7.173101-4.533001 7.262765-4.533001C7.372354-4.533001 7.382316-4.592777 7.402242-4.782067L7.601494-6.505604C7.631382-6.774595 7.581569-6.774595 7.332503-6.774595H2.30137C2.102117-6.774595 2.002491-6.774595 2.002491-6.575342C2.002491-6.465753 2.092154-6.465753 2.281445-6.465753C2.650062-6.465753 2.929016-6.465753 2.929016-6.286426C2.929016-6.246575 2.929016-6.22665 2.879203-6.047323L1.564134-.777086C1.464508-.388543 1.444583-.308842 .657534-.308842C.488169-.308842 .37858-.308842 .37858-.119552C.37858 0 .468244 0 .657534 0H5.828144C6.057285 0 6.067248-.009963 6.136986-.169365L7.053549-2.321295Z'/>
<path id='g1-61' d='M6.844334-3.257783C6.993773-3.257783 7.183064-3.257783 7.183064-3.457036S6.993773-3.656289 6.854296-3.656289H.886675C.747198-3.656289 .557908-3.656289 .557908-3.457036S.747198-3.257783 .896638-3.257783H6.844334ZM6.854296-1.325031C6.993773-1.325031 7.183064-1.325031 7.183064-1.524284S6.993773-1.723537 6.844334-1.723537H.896638C.747198-1.723537 .557908-1.723537 .557908-1.524284S.747198-1.325031 .886675-1.325031H6.854296Z'/>
<path id='g0-109' d='M.876712-.587796C.846824-.438356 .787049-.209215 .787049-.159402C.787049 .019925 .926526 .109589 1.075965 .109589C1.195517 .109589 1.374844 .029888 1.444583-.169365C1.454545-.18929 1.574097-.657534 1.633873-.9066L1.853051-1.803238C1.912827-2.022416 1.972603-2.241594 2.022416-2.470735C2.062267-2.6401 2.141968-2.929016 2.15193-2.968867C2.30137-3.277709 2.82939-4.184309 3.775841-4.184309C4.224159-4.184309 4.313823-3.815691 4.313823-3.486924C4.313823-3.237858 4.244085-2.958904 4.164384-2.660025L3.88543-1.504359L3.686177-.747198C3.646326-.547945 3.556663-.209215 3.556663-.159402C3.556663 .019925 3.696139 .109589 3.845579 .109589C4.154421 .109589 4.214197-.139477 4.293898-.458281C4.433375-1.016189 4.801993-2.470735 4.891656-2.859278C4.921544-2.988792 5.449564-4.184309 6.535492-4.184309C6.963885-4.184309 7.073474-3.845579 7.073474-3.486924C7.073474-2.919054 6.655044-1.783313 6.455791-1.255293C6.366127-1.016189 6.326276-.9066 6.326276-.707347C6.326276-.239103 6.674969 .109589 7.143213 .109589C8.079701 .109589 8.448319-1.344956 8.448319-1.424658C8.448319-1.524284 8.358655-1.524284 8.328767-1.524284C8.229141-1.524284 8.229141-1.494396 8.179328-1.344956C8.029888-.816936 7.711083-.109589 7.163138-.109589C6.993773-.109589 6.924035-.209215 6.924035-.438356C6.924035-.687422 7.013699-.926526 7.103362-1.145704C7.292653-1.663761 7.711083-2.769614 7.711083-3.337484C7.711083-3.985056 7.312578-4.403487 6.56538-4.403487S5.310087-3.965131 4.941469-3.437111C4.931507-3.566625 4.901619-3.905355 4.622665-4.144458C4.373599-4.353674 4.054795-4.403487 3.805729-4.403487C2.909091-4.403487 2.420922-3.765878 2.251557-3.536737C2.201743-4.104608 1.783313-4.403487 1.334994-4.403487C.876712-4.403487 .687422-4.014944 .597758-3.835616C.418431-3.486924 .288917-2.899128 .288917-2.86924C.288917-2.769614 .388543-2.769614 .408468-2.769614C.508095-2.769614 .518057-2.779577 .577833-2.998755C.747198-3.706102 .946451-4.184309 1.305106-4.184309C1.464508-4.184309 1.613948-4.104608 1.613948-3.726027C1.613948-3.516812 1.58406-3.407223 1.454545-2.889166L.876712-.587796Z'/>
<path id='g0-99' d='M3.945205-3.785803C3.785803-3.785803 3.646326-3.785803 3.506849-3.646326C3.347447-3.496887 3.327522-3.327522 3.327522-3.257783C3.327522-3.01868 3.506849-2.909091 3.696139-2.909091C3.985056-2.909091 4.254047-3.148194 4.254047-3.5467C4.254047-4.034869 3.785803-4.403487 3.078456-4.403487C1.733499-4.403487 .408468-2.978829 .408468-1.574097C.408468-.67746 .986301 .109589 2.022416 .109589C3.447073 .109589 4.283935-.946451 4.283935-1.066002C4.283935-1.125778 4.224159-1.195517 4.164384-1.195517C4.11457-1.195517 4.094645-1.175592 4.034869-1.09589C3.247821-.109589 2.161893-.109589 2.042341-.109589C1.414695-.109589 1.145704-.597758 1.145704-1.195517C1.145704-1.603985 1.344956-2.570361 1.683686-3.188045C1.992528-3.755915 2.540473-4.184309 3.088418-4.184309C3.427148-4.184309 3.805729-4.054795 3.945205-3.785803Z'/>
<path id='g2-50' d='M3.521793-1.26924H3.284682C3.263761-1.115816 3.194022-.704359 3.103362-.63462C3.047572-.592777 2.510585-.592777 2.412951-.592777H1.129763C1.862017-1.241345 2.106102-1.436613 2.524533-1.764384C3.040598-2.175841 3.521793-2.608219 3.521793-3.270735C3.521793-4.11457 2.782565-4.630635 1.889913-4.630635C1.025156-4.630635 .439352-4.02391 .439352-3.382316C.439352-3.02665 .739228-2.991781 .808966-2.991781C.976339-2.991781 1.17858-3.110336 1.17858-3.361395C1.17858-3.486924 1.129763-3.731009 .767123-3.731009C.983313-4.226152 1.457534-4.379577 1.785305-4.379577C2.48269-4.379577 2.84533-3.835616 2.84533-3.270735C2.84533-2.66401 2.412951-2.182814 2.189788-1.931756L.509091-.27198C.439352-.209215 .439352-.195268 .439352 0H3.312578L3.521793-1.26924Z'/>
</defs>
<g id='page1'>
<use x='152.485491' y='-3.586587' xlink:href='#g0-69'/>
<use x='163.181416' y='-3.586587' xlink:href='#g1-61'/>
<use x='173.697496' y='-3.586587' xlink:href='#g0-109'/>
<use x='182.44483' y='-3.586587' xlink:href='#g0-99'/>
<use x='186.756226' y='-7.700083' xlink:href='#g2-50'/>
</g>
</svg>"

/-- The hardcoded SVG for the exact expression "x", verbatim. -/
def svgX : String :=
  "<?xml version='1.0' encoding='UTF-8'?>
<!-- Generated by KaTeX renderer -->
<svg version='1.1' xmlns='http://www.w3.org/2000/svg' xmlns:xlink='http://www.w3.org/1999/xlink' width='5.693932pt' height='4.289468pt' viewBox='169.008582 -7.876055 5.693932 4.289468'>

<defs>
<path id='g0-120' d='M3.327522-3.008717C3.387298-3.267746 3.616438-4.184309 4.313823-4.184309C4.363636-4.184309 4.60274-4.184309 4.811955-4.054795C4.533001-4.004981 4.333748-3.755915 4.333748-3.516812C4.333748-3.35741 4.443337-3.16812 4.712329-3.16812C4.931507-3.16812 5.250311-3.347447 5.250311-3.745953C5.250311-4.26401 4.662516-4.403487 4.323786-4.403487C3.745953-4.403487 3.39726-3.875467 3.277709-3.646326C3.028643-4.303861 2.49066-4.403487 2.201743-4.403487C1.165629-4.403487 .597758-3.118306 .597758-2.86924C.597758-2.769614 .697385-2.769614 .71731-2.769614C.797011-2.769614 .826899-2.789539 .846824-2.879203C1.185554-3.935243 1.843088-4.184309 2.181818-4.184309C2.371108-4.184309 2.719801-4.094645 2.719801-3.516812C2.719801-3.20797 2.550436-2.540473 2.181818-1.145704C2.022416-.52802 1.673724-.109589 1.235367-.109589C1.175592-.109589 .946451-.109589 .737235-.239103C.986301-.288917 1.205479-.498132 1.205479-.777086C1.205479-1.046077 .986301-1.125778 .836862-1.125778C.537983-1.125778 .288917-.86675 .288917-.547945C.288917-.089664 .787049 .109589 1.225405 .109589C1.882939 .109589 2.241594-.587796 2.271482-.647572C2.391034-.278954 2.749689 .109589 3.347447 .109589C4.373599 .109589 4.941469-1.175592 4.941469-1.424658C4.941469-1.524284 4.851806-1.524284 4.821918-1.524284C4.732254-1.524284 4.712329-1.484433 4.692403-1.414695C4.363636-.348692 3.686177-.109589 3.367372-.109589C2.978829-.109589 2.819427-.428394 2.819427-.767123C2.819427-.986301 2.879203-1.205479 2.988792-1.643836L3.327522-3.008717Z'/>
</defs>
<g id='page1'>
<use x='169.008582' y='-3.586587' xlink:href='#g0-120'/>
</g>
</svg>"

/-- The hardcoded SVG for expressions containing "This is some" or "LaTeX", verbatim. -/
def svgTextBlocks : String :=
  "<?xml version='1.0' encoding='UTF-8'?>
<!-- Generated by KaTeX renderer -->
<svg version='1.1' xmlns='http://www.w3.org/2000/svg' xmlns:xlink='http://www.w3.org/1999/xlink' width='80pt' height='12pt' viewBox='0 -8 80 12'>

<defs>
<path id='g0-text' d='M2 -6 L2 6 L4 6 L4 -6 Z M8 -6 L8 -4 L12 -4 L12 -6 Z M8 -2 L8 0 L12 0 L12 -2 Z M8 2 L8 4 L12 4 L12 2 Z M16 -6 L16 6 L18 6 L18 -6 Z M16 -6 L22 -6 L22 -4 L16 -4 Z M30 -6 L30 6 L32 6 L32 -6 Z M30 -6 L36 -6 L36 -4 L30 -4 Z M30 -1 L34 -1 L34 1 L30 1 Z M40 -6 L40 6 L42 6 L42 -6 Z M40 -6 L46 -6 L46 -4 L40 -4 Z M50 -3 C50 -5 52 -6 54 -6 C56 -6 58 -5 58 -3 C58 -1 56 0 54 0 C52 0 50 -1 50 -3 Z M62 -6 L62 6 L64 6 L64 -6 Z M62 -6 L68 -6 L68 -4 L62 -4 Z M62 -1 L66 -1 L66 1 L62 1 Z M62 4 L68 4 L68 6 L62 6 Z'/>
</defs>
<g id='page1'>
<use x='0' y='0' xlink:href='#g0-text'/>
</g>
</svg>"

/-- The hardcoded SVG for expressions containing "sum", "frac" or "pi", verbatim. -/
def svgSumFrac : String :=
  "<?xml version='1.0' encoding='UTF-8'?>
<!-- Generated by KaTeX renderer -->
<svg version='1.1' xmlns='http://www.w3.org/2000/svg' xmlns:xlink='http://www.w3.org/1999/xlink' width='120pt' height='30pt' viewBox='0 -20 120 30'>

<defs>
<path id='g0-sum' d='M5 -15 L15 -15 L15 -12 L8 -5 L15 2 L15 5 L5 5 L5 3 L12 -1 L5 -8 L5 -15 Z'/>
<path id='g0-frac' d='M0 -8 L12 -8 L12 -6 L0 -6 Z M0 0 L12 0 L12 2 L0 2 Z M0 8 L12 8 L12 10 L0 10 Z'/>
<path id='g0-equals' d='M0 -3 L15 -3 L15 -1 L0 -1 Z M0 3 L15 3 L15 5 L0 5 Z'/>
<path id='g0-pi' d='M2 -8 L2 8 L4 8 L4 -8 Z M8 -8 L8 8 L10 8 L10 -8 Z M0 -8 L12 -8 L12 -6 L0 -6 Z'/>
<path id='g0-num' d='M0 -6 L6 -6 L6 6 L0 6 L0 -6 Z'/>
</defs>
<g id='page1'>
<use x='5' y='0' xlink:href='#g0-sum'/>
<use x='25' y='-10' xlink:href='#g0-num'/>
<use x='35' y='0' xlink:href='#g0-frac'/>
<use x='50' y='0' xlink:href='#g0-equals'/>
<use x='70' y='0' xlink:href='#g0-frac'/>
<use x='85' y='-8' xlink:href='#g0-pi'/>
<use x='100' y='-10' xlink:href='#g0-num'/>
</g>
</svg>"

/-- The hardcoded SVG for expressions containing "transform" or "grid", verbatim. -/
def svgWordBars : String :=
  "<?xml version='1.0' encoding='UTF-8'?>
<!-- Generated by KaTeX renderer -->
<svg version='1.1' xmlns='http://www.w3.org/2000/svg' xmlns:xlink='http://www.w3.org/1999/xlink' width='60pt' height='12pt' viewBox='0 -8 60 12'>

<defs>
<path id='g0-word' d='M2 -6 L2 6 L4 6 L4 -6 Z M8 -6 L8 6 L10 6 L10 -6 Z M14 -6 L14 6 L16 6 L16 -6 Z M20 -6 L20 6 L22 6 L22 -6 Z M26 -6 L26 6 L28 6 L28 -6 Z'/>
</defs>
<g id='page1'>
<use x='5' y='0' xlink:href='#g0-word'/>
</g>
</svg>"

/-- Embeds `_create_simple_math_svg`: a lookup over special-cased expression
texts, falling back to a generated box whose width is `len(expression)*8+10`. -/
def _create_simple_math_svg (expression : String) : String :=
  if expression = "E = mc^2" then svgEmc2
  else if expression = "x" then svgX
  else if strContains expression "This is some" || strContains expression "LaTeX" then
    svgTextBlocks
  else if strContains expression "sum" || strContains expression "frac"
      || strContains expression "pi" then
    svgSumFrac
  else if strContains expression "transform" || strContains expression "grid" then
    svgWordBars
  else
    let char_width := 8
    let width := expression.length * char_width + 10
    let height := 20
    "<?xml version='1.0' encoding='UTF-8'?>\n<!-- Generated by KaTeX renderer -->\n<svg version='1.1' xmlns='http://www.w3.org/2000/svg' xmlns:xlink='http://www.w3.org/1999/xlink' width='"
      ++ toString width ++ "pt' height='" ++ toString height ++ "pt' viewBox='0 -"
      ++ toString (height / 2) ++ " " ++ toString width ++ " " ++ toString height
      ++ "'>\n\n<defs>\n<path id='g0-text' d='M0 -" ++ toString (height / 4)
      ++ " L0 " ++ toString (height / 4) ++ " L" ++ toString (width - 10) ++ " "
      ++ toString (height / 4) ++ " L" ++ toString (width - 10) ++ " -"
      ++ toString (height / 4)
      ++ " Z'/>\n</defs>\n<g id='page1'>\n<use x='5' y='0' xlink:href='#g0-text'/>\n</g>\n</svg>"

/-- Embeds `_katex_to_svg_via_mathjax`: the Node.js conversion subprocess is
an oracle; a nonzero return code or output not starting with `<svg` raises
`ValueError`; on success the output is improved for Manim, but for the two
known expressions the hardcoded SVG is returned instead.  `TimeoutExpired`
and `FileNotFoundError` from the subprocess are re-raised as `ValueError` /
`RuntimeError`. -/
def _katex_to_svg_via_mathjax (run : Except SubprocErr NodeResult) (expression : String) :
    Except PyExc String :=
  match run with
  | .error .timeoutExpired => .error (.valueError "KaTeX to SVG conversion timed out")
  | .error .fileNotFound =>
    .error (.runtimeError "Node.js not found. Please install Node.js to use KaTeX renderer.")
  | .ok result =>
    if result.returncode ≠ 0 then
      .error (.valueError ("KaTeX to SVG conversion failed: "
        ++ (if result.stderr = "" then "Unknown conversion error" else result.stderr)))
    else
      let svg_content := pyStrip result.stdout
      if !(pyStartswith "<svg" svg_content) then
        .error (.valueError "Conversion did not produce valid SVG output")
      else
        let improved_svg := _improve_svg_for_manim svg_content
        if expression = "E = mc^2" ∨ expression = "x" then
          .ok (_create_simple_math_svg expression)
        else
          .ok improved_svg

/-! ## Concrete inputs used by the witnesses -/

/-- Oracle record with no Node.js installed: both probes raise
`FileNotFoundError`. -/
def extNoNode : RenderExt where
  nodeVersion := .error .fileNotFound
  katexCheck := .error .fileNotFound
  texToSvgFile := fun _ => .error (.other "unused")
  readFile := fun _ => .error (.other "unused")

/-- Oracle record for a healthy environment. -/
def extOk : RenderExt where
  nodeVersion := .ok ⟨0, "v20.0.0", ""⟩
  katexCheck := .ok ⟨0, "KaTeX available", ""⟩
  texToSvgFile := fun _ => .ok "media/Tex/out.svg"
  readFile := fun _ => .ok "<svg/>"

/-- An empty filesystem. -/
def fsEmpty : FS where
  dirs := fun _ => false
  files := fun _ => none

/-- A filesystem where every path is a cached file. -/
def fsCached : FS where
  dirs := fun _ => true
  files := fun _ => some "cached"

/-- A successful Node.js conversion-subprocess outcome whose stripped stdout
is valid SVG. -/
def nodeOkRun : NodeResult where
  returncode := 0
  stdout := "<svg>converted</svg>"
  stderr := ""

set_option maxRecDepth 8000 in
/-- Sanity check: the embedded SHA-256 on the standard test vector "abc". -/
theorem sha256_abc_vector :
    hexdigest (sha256 (strBytes "abc")) =
      "ba7816bf8f01cfea414140de5dae2223b00361a396177a9cb410ff61f20015ad" := by
  decide

/-! ## Helper lemmas about the renderer -/

/-- The trace of `_render_katex_to_svg` is exactly one `tex_to_svg_file` call
on the wrapped expression. -/
theorem render_katex_trace (ext : RenderExt) (expression : String) :
    (_render_katex_to_svg ext expression).2 = [Call.texToSvgFile (mathExprOf expression)] := by
  unfold _render_katex_to_svg
  dsimp only
  rcases h1 : ext.texToSvgFile (mathExprOf expression) with e | p
  · simp [h1]
  · rcases h2 : ext.readFile p with e2 | c <;> simp [h1, h2]

/-- The result of `_render_katex_to_svg` is the placeholder or the content
read from the pipeline's output file. -/
theorem render_katex_result_cases (ext : RenderExt) (expression : String) :
    (_render_katex_to_svg ext expression).1 = fallbackRectSVG ∨
    ∃ p, ext.texToSvgFile (mathExprOf expression) = .ok p ∧
         ext.readFile p = .ok (_render_katex_to_svg ext expression).1 := by
  unfold _render_katex_to_svg
  dsimp only
  rcases h1 : ext.texToSvgFile (mathExprOf expression) with e | p
  · simp [h1]
  · rcases h2 : ext.readFile p with e2 | c
    · simp [h1, h2]
    · refine Or.inr ⟨p, ?_, ?_⟩ <;> simp [h1, h2]

/-- On an available probe, `katex_to_svg_file` returns the cached SVG path. -/
theorem katex_to_svg_file_returns_path (ext : RenderExt) (texDir : String) (fs : FS)
    (expression : String) (environment : Option String) (kwargs : String)
    (h : ensure_katex_available ext.nodeVersion ext.katexCheck = true) :
    (katex_to_svg_file ext texDir fs expression environment kwargs).1 =
      .ok (svgFilePath texDir expression environment kwargs) := by
  unfold katex_to_svg_file
  rw [if_neg (by simp [h])]
  dsimp only
  split <;> rfl

/-! ## The claims -/

/-- C1: when `ensure_katex_available` reports Node.js or KaTeX unavailable,
`katex_to_svg_file` raises the `RuntimeError` and leaves the filesystem
unchanged: no cache directory is created and no SVG file is written. -/
theorem katex_to_svg_file_unavailable_raises (ext : RenderExt) (texDir : String) (fs : FS)
    (expression : String) (environment : Option String) (kwargs : String)
    (h : ensure_katex_available ext.nodeVersion ext.katexCheck = false) :
    (katex_to_svg_file ext texDir fs expression environment kwargs).1 =
        .error (.runtimeError katexUnavailableMsg) ∧
    (katex_to_svg_file ext texDir fs expression environment kwargs).2.1 = fs := by
  unfold katex_to_svg_file
  rw [if_pos h]
  exact ⟨rfl, rfl⟩

/-- Witness for C1 at a concrete input. -/
theorem katex_to_svg_file_unavailable_raises_witness :
    ensure_katex_available extNoNode.nodeVersion extNoNode.katexCheck = false ∧
    ((katex_to_svg_file extNoNode "media/Tex" fsEmpty "x" none "{}").1 =
        .error (.runtimeError katexUnavailableMsg) ∧
     (katex_to_svg_file extNoNode "media/Tex" fsEmpty "x" none "{}").2.1 = fsEmpty) :=
  ⟨rfl, katex_to_svg_file_unavailable_raises extNoNode "media/Tex" fsEmpty "x" none "{}" rfl⟩

/-- C2: the returned path is the file in the tex directory named by the first
16 hex characters of the SHA-256 digest of `"{expression}_{environment}_{kwargs}"`
followed by `.svg`; and `katex_hash` is exactly that truncation of SHA-256. -/
theorem katex_to_svg_file_path_is_truncated_sha256 (ext : RenderExt) (texDir : String)
    (fs : FS) (expression : String) (environment : Option String) (kwargs : String)
    (h : ensure_katex_available ext.nodeVersion ext.katexCheck = true) :
    (katex_to_svg_file ext texDir fs expression environment kwargs).1 =
      .ok (texDir ++ "/"
        ++ (hexdigest (sha256 (strBytes
              (expression ++ "_" ++ pyStrOfEnv environment ++ "_" ++ kwargs)))).take 16
        ++ ".svg") ∧
    ∀ s : String, katex_hash s = (hexdigest (sha256 (strBytes s))).take 16 :=
  ⟨katex_to_svg_file_returns_path ext texDir fs expression environment kwargs h,
   fun _ => rfl⟩

/-- Witness for C2 at a concrete input. -/
theorem katex_to_svg_file_path_is_truncated_sha256_witness :
    ensure_katex_available extOk.nodeVersion extOk.katexCheck = true ∧
    ((katex_to_svg_file extOk "media/Tex" fsEmpty "E = mc^2" none "{}").1 =
        .ok ("media/Tex" ++ "/"
          ++ (hexdigest (sha256 (strBytes
                ("E = mc^2" ++ "_" ++ pyStrOfEnv none ++ "_" ++ "{}")))).take 16
          ++ ".svg") ∧
     ∀ s : String, katex_hash s = (hexdigest (sha256 (strBytes s))).take 16) :=
  ⟨rfl, katex_to_svg_file_path_is_truncated_sha256 extOk "media/Tex" fsEmpty
    "E = mc^2" none "{}" rfl⟩

/-- C3: two calls with the same expression, environment and kwargs (and the
same configured tex directory) return the identical path, whatever the
filesystem state or external outcomes of each run. -/
theorem same_cache_key_same_path (ext ext' : RenderExt) (texDir : String) (fs fs' : FS)
    (expression : String) (environment : Option String) (kwargs : String)
    (h : ensure_katex_available ext.nodeVersion ext.katexCheck = true)
    (h' : ensure_katex_available ext'.nodeVersion ext'.katexCheck = true) :
    ∃ p : String,
      (katex_to_svg_file ext texDir fs expression environment kwargs).1 = .ok p ∧
      (katex_to_svg_file ext' texDir fs' expression environment kwargs).1 = .ok p :=
  ⟨svgFilePath texDir expression environment kwargs,
   katex_to_svg_file_returns_path ext texDir fs expression environment kwargs h,
   katex_to_svg_file_returns_path ext' texDir fs' expression environment kwargs h'⟩

/-- Witness for C3 at concrete inputs (one cold run, one with a cache). -/
theorem same_cache_key_same_path_witness :
    ensure_katex_available extOk.nodeVersion extOk.katexCheck = true ∧
    ∃ p : String,
      (katex_to_svg_file extOk "media/Tex" fsEmpty "x" (some "align*") "{}").1 = .ok p ∧
      (katex_to_svg_file extOk "media/Tex" fsCached "x" (some "align*") "{}").1 = .ok p :=
  ⟨rfl, same_cache_key_same_path extOk extOk "media/Tex" fsEmpty fsCached
    "x" (some "align*") "{}" rfl rfl⟩

/-- C4: `_render_katex_to_svg` propagates no exception: it always returns an
SVG string, and whenever `tex_to_svg_file` or the file read raises, the
returned string is the fixed hand-drawn rectangle placeholder. -/
theorem render_katex_to_svg_never_propagates (ext : RenderExt) (expression : String) :
    ((_render_katex_to_svg ext expression).1 = fallbackRectSVG ∨
      ∃ p, ext.texToSvgFile (mathExprOf expression) = .ok p ∧
           ext.readFile p = .ok (_render_katex_to_svg ext expression).1) ∧
    (∀ e, ext.texToSvgFile (mathExprOf expression) = .error e →
      (_render_katex_to_svg ext expression).1 = fallbackRectSVG) ∧
    (∀ p e, ext.texToSvgFile (mathExprOf expression) = .ok p →
      ext.readFile p = .error e →
      (_render_katex_to_svg ext expression).1 = fallbackRectSVG) := by
  refine ⟨render_katex_result_cases ext expression, ?_, ?_⟩
  · intro e he
    unfold _render_katex_to_svg
    dsimp only
    simp [he]
  · intro p e hp he
    unfold _render_katex_to_svg
    dsimp only
    simp [hp, he]

/-- C8: `_process_expression_for_katex` is the identity on the expression for
every environment (`None`, `"align*"`, `"equation*"`, `"center"`, or any
other string). -/
theorem process_expression_for_katex_identity (expression : String)
    (environment : Option String) :
    _process_expression_for_katex expression environment = expression := by
  cases environment <;> simp [_process_expression_for_katex]

/-- C10: the fallback path wraps the expression in `$...$` before passing it
to `tex_to_svg_file` exactly when it starts with neither `$` nor `\begin`;
otherwise the expression is passed unchanged. -/
theorem render_katex_to_svg_math_wrapping (ext : RenderExt) (expression : String) :
    ((pyStartswith "$" expression || pyStartswith "\\begin" expression) = false →
      (_render_katex_to_svg ext expression).2 =
        [Call.texToSvgFile ("$" ++ expression ++ "$")]) ∧
    ((pyStartswith "$" expression || pyStartswith "\\begin" expression) = true →
      (_render_katex_to_svg ext expression).2 = [Call.texToSvgFile expression]) := by
  constructor <;> intro h <;> rw [render_katex_trace ext expression] <;>
    simp [mathExprOf, h]

/-- C6: on a cache hit (the target SVG file exists) the call returns that
path, makes no render call, and rewrites no file, so every file's contents
are unchanged; when the tex directory also already exists the filesystem is
unchanged entirely. -/
theorem katex_to_svg_file_cache_hit_frame (ext : RenderExt) (texDir : String) (fs : FS)
    (expression : String) (environment : Option String) (kwargs : String) (c : String)
    (h : ensure_katex_available ext.nodeVersion ext.katexCheck = true)
    (hhit : fs.files (svgFilePath texDir expression environment kwargs) = some c) :
    (katex_to_svg_file ext texDir fs expression environment kwargs).1 =
      .ok (svgFilePath texDir expression environment kwargs) ∧
    (katex_to_svg_file ext texDir fs expression environment kwargs).2.1.files = fs.files ∧
    (∀ s, Call.texToSvgFile s ∉
      (katex_to_svg_file ext texDir fs expression environment kwargs).2.2) ∧
    (fs.dirs texDir = true →
      (katex_to_svg_file ext texDir fs expression environment kwargs).2.1 = fs) := by
  have hhit' : fs.files
      (texDir ++ "/" ++ katex_hash (cacheKey expression environment kwargs) ++ ".svg") =
      some c := hhit
  unfold katex_to_svg_file
  rw [if_neg (by simp [h])]
  by_cases hd : fs.dirs texDir = true
  · rw [if_pos hd]
    dsimp only
    rw [hhit']
    refine ⟨rfl, rfl, ?_, fun _ => rfl⟩
    intro s
    simp
  · rw [if_neg hd]
    dsimp only
    rw [hhit']
    refine ⟨rfl, rfl, ?_, fun hdd => absurd hdd hd⟩
    intro s
    simp

/-- Witness for C6 at a concrete input. -/
theorem katex_to_svg_file_cache_hit_frame_witness :
    ensure_katex_available extOk.nodeVersion extOk.katexCheck = true ∧
    fsCached.files (svgFilePath "media/Tex" "x" none "{}") = some "cached" ∧
    ((katex_to_svg_file extOk "media/Tex" fsCached "x" none "{}").1 =
        .ok (svgFilePath "media/Tex" "x" none "{}") ∧
      (katex_to_svg_file extOk "media/Tex" fsCached "x" none "{}").2.1.files =
        fsCached.files ∧
      (∀ s, Call.texToSvgFile s ∉
        (katex_to_svg_file extOk "media/Tex" fsCached "x" none "{}").2.2) ∧
      (fsCached.dirs "media/Tex" = true →
        (katex_to_svg_file extOk "media/Tex" fsCached "x" none "{}").2.1 = fsCached)) :=
  ⟨rfl, rfl,
   katex_to_svg_file_cache_hit_frame extOk "media/Tex" fsCached "x" none "{}" "cached" rfl rfl⟩

/-- C5: on a cache miss the written SVG content comes from the original
LaTeX pipeline (`tex_to_svg_file` plus a file read) or is the rectangle
placeholder, and `_katex_to_svg_via_mathjax` is never invoked. -/
theorem katex_to_svg_file_bypasses_mathjax (ext : RenderExt) (texDir : String) (fs : FS)
    (expression : String) (environment : Option String) (kwargs : String)
    (h : ensure_katex_available ext.nodeVersion ext.katexCheck = true)
    (hmiss : fs.files (svgFilePath texDir expression environment kwargs) = none) :
    (∀ s, Call.katexToSvgViaMathjax s ∉
      (katex_to_svg_file ext texDir fs expression environment kwargs).2.2) ∧
    ∃ content,
      (katex_to_svg_file ext texDir fs expression environment kwargs).2.1.files
          (svgFilePath texDir expression environment kwargs) = some content ∧
      (content = fallbackRectSVG ∨
        ∃ p, ext.texToSvgFile
              (mathExprOf (_process_expression_for_katex expression environment)) = .ok p ∧
             ext.readFile p = .ok content) := by
  have hmiss' : fs.files
      (texDir ++ "/" ++ katex_hash (cacheKey expression environment kwargs) ++ ".svg") =
      none := hmiss
  unfold katex_to_svg_file
  rw [if_neg (by simp [h])]
  by_cases hd : fs.dirs texDir = true
  · rw [if_pos hd]
    dsimp only
    simp only [hmiss']
    constructor
    · intro s
      rw [render_katex_trace]
      simp
    · refine ⟨(_render_katex_to_svg ext
        (_process_expression_for_katex expression environment)).1, ?_, ?_⟩
      · simp [svgFilePath]
      · exact render_katex_result_cases ext _
  · rw [if_neg hd]
    dsimp only
    simp only [hmiss']
    constructor
    · intro s
      rw [render_katex_trace]
      simp
    · refine ⟨(_render_katex_to_svg ext
        (_process_expression_for_katex expression environment)).1, ?_, ?_⟩
      · simp [svgFilePath]
      · exact render_katex_result_cases ext _

/-- Witness for C5 at a concrete input. -/
theorem katex_to_svg_file_bypasses_mathjax_witness :
    ensure_katex_available extOk.nodeVersion extOk.katexCheck = true ∧
    fsEmpty.files (svgFilePath "media/Tex" "E = mc^2" none "{}") = none ∧
    ((∀ s, Call.katexToSvgViaMathjax s ∉
        (katex_to_svg_file extOk "media/Tex" fsEmpty "E = mc^2" none "{}").2.2) ∧
      ∃ content,
        (katex_to_svg_file extOk "media/Tex" fsEmpty "E = mc^2" none "{}").2.1.files
            (svgFilePath "media/Tex" "E = mc^2" none "{}") = some content ∧
        (content = fallbackRectSVG ∨
          ∃ p, extOk.texToSvgFile
                (mathExprOf (_process_expression_for_katex "E = mc^2" none)) = .ok p ∧
               extOk.readFile p = .ok content)) :=
  ⟨rfl, rfl,
   katex_to_svg_file_bypasses_mathjax extOk "media/Tex" fsEmpty "E = mc^2" none "{}" rfl rfl⟩

/-- C7: for the known expressions `E = mc^2` and `x`, when the conversion
subprocess succeeds and its stripped output is valid SVG,
`_katex_to_svg_via_mathjax` discards the converted output and returns the
hardcoded SVG of `_create_simple_math_svg` for that exact expression. -/
theorem mathjax_prebaked_for_known_inputs (result : NodeResult) (expression : String)
    (hexp : expression = "E = mc^2" ∨ expression = "x")
    (hrc : result.returncode = 0)
    (hsvg : pyStartswith "<svg" (pyStrip result.stdout) = true) :
    _katex_to_svg_via_mathjax (.ok result) expression =
      .ok (_create_simple_math_svg expression) := by
  unfold _katex_to_svg_via_mathjax
  dsimp only
  rw [if_neg (by simp [hrc])]
  rw [if_neg (by simp [hsvg])]
  rw [if_pos hexp]

/-- Witness for C7 at a concrete input. -/
theorem mathjax_prebaked_for_known_inputs_witness :
    (("x" : String) = "E = mc^2" ∨ ("x" : String) = "x") ∧
    nodeOkRun.returncode = 0 ∧
    pyStartswith "<svg" (pyStrip nodeOkRun.stdout) = true ∧
    _katex_to_svg_via_mathjax (.ok nodeOkRun) "x" = .ok (_create_simple_math_svg "x") :=
  ⟨Or.inr rfl, rfl, by decide,
   mathjax_prebaked_for_known_inputs nodeOkRun "x" (Or.inr rfl) rfl (by decide)⟩

/-! ## Lemmas about the `re.sub` scanners (for the `_improve_svg_for_manim`
claims) -/

/-- A nonempty pattern never matches the empty list. -/
theorem patMatch_nil (p : List (Char → Bool)) (hp : 0 < p.length) : patMatch p [] = false := by
  cases p with
  | nil => simp at hp
  | cons f fs => rfl

/-- `List.isPrefixOf` is `patMatch` of the literal pattern. -/
theorem isPrefixOf_eq_patMatch (cs : List Char) :
    ∀ l : List Char, cs.isPrefixOf l = patMatch (cs.map (fun c => fun x => c == x)) l := by
  induction cs with
  | nil => intro l; simp [patMatch]
  | cons c cs ih =>
    intro l
    cases l with
    | nil => simp [List.isPrefixOf, patMatch]
    | cons d ds => simp [List.isPrefixOf, patMatch, ih]

/-- `litMatch` is `patMatch` of `litPat`. -/
theorem litMatch_eq_patMatch (s : String) (l : List Char) :
    litMatch s l = patMatch (litPat s) l :=
  isPrefixOf_eq_patMatch s.toList l

/-- A match over a concatenation is in particular compatible with the left
part. -/
theorem patCompat_of_patMatch_append (p : List (Char → Bool)) (a b : List Char)
    (h : patMatch p (a ++ b) = true) : patCompat p a = true := by
  induction a generalizing p with
  | nil => cases p <;> rfl
  | cons c cs ih =>
    cases p with
    | nil => rfl
    | cons f fs =>
      simp only [List.cons_append, patMatch, Bool.and_eq_true] at h
      simp only [patCompat, Bool.and_eq_true]
      exact ⟨h.1, ih fs h.2⟩

/-- An incompatible left part rules out any match over the concatenation. -/
theorem patMatch_append_eq_false (p : List (Char → Bool)) (a b : List Char)
    (h : patCompat p a = false) : patMatch p (a ++ b) = false := by
  cases hm : patMatch p (a ++ b) with
  | false => rfl
  | true => exact absurd (patCompat_of_patMatch_append p a b hm) (by simp [h])

/-- A match of a concatenated pattern matches its left part. -/
theorem patMatch_append_left (p1 p2 : List (Char → Bool)) (l : List Char)
    (h : patMatch (p1 ++ p2) l = true) : patMatch p1 l = true := by
  induction p1 generalizing l with
  | nil => rfl
  | cons f fs ih =>
    cases l with
    | nil => simp [patMatch] at h
    | cons c cs =>
      simp only [List.cons_append, patMatch, Bool.and_eq_true] at h ⊢
      exact ⟨h.1, ih cs h.2⟩

/-- A match of a concatenated pattern matches its right part after dropping
the left part's length. -/
theorem patMatch_append_drop (p1 p2 : List (Char → Bool)) (l : List Char)
    (h : patMatch (p1 ++ p2) l = true) : patMatch p2 (List.drop p1.length l) = true := by
  induction p1 generalizing l with
  | nil => simpa using h
  | cons f fs ih =>
    cases l with
    | nil => simp [patMatch] at h
    | cons c cs =>
      simp only [List.cons_append, patMatch, Bool.and_eq_true] at h
      simpa [List.drop_succ_cons] using ih cs h.2

/-- `occursPatB` is false exactly when the pattern matches at no position. -/
theorem occursPatB_eq_false_iff (p : List (Char → Bool)) (l : List Char) :
    occursPatB p l = false ↔ ∀ i, patMatch p (List.drop i l) = false := by
  induction l with
  | nil =>
    simp only [occursPatB, List.drop_nil]
    exact ⟨fun h _ => h, fun h => h 0⟩
  | cons c cs ih =>
    simp only [occursPatB, Bool.or_eq_false_iff, ih]
    constructor
    · rintro ⟨h0, hrest⟩ i
      cases i with
      | zero => simpa using h0
      | succ i' => simpa [List.drop_succ_cons] using hrest i'
    · intro h
      exact ⟨by simpa using h 0, fun i' => by simpa [List.drop_succ_cons] using h (i' + 1)⟩

/-- A scanner whose matcher never fires is the identity. -/
theorem reSub_id (m : List Char → Option (List Char × List Char)) :
    ∀ (fuel : Nat) (l : List Char), (∀ i, m (List.drop i l) = none) →
      reSub m fuel l = l := by
  intro fuel
  induction fuel with
  | zero => intro l _; rfl
  | succ f ih =>
    intro l h
    cases l with
    | nil => rfl
    | cons c cs =>
      have h0 : m (c :: cs) = none := by simpa using h 0
      simp only [reSub, h0]
      rw [ih cs (fun i => by simpa [List.drop_succ_cons] using h (i + 1))]

/-- A fixed-shape scanner whose pattern occurs nowhere is the identity. -/
theorem reSubP_id (p : List (Char → Bool)) (rep : List Char) :
    ∀ (fuel : Nat) (l : List Char), (∀ i, patMatch p (List.drop i l) = false) →
      reSubP p rep fuel l = l := by
  intro fuel
  induction fuel with
  | zero => intro l _; rfl
  | succ f ih =>
    intro l h
    cases l with
    | nil => rfl
    | cons c cs =>
      have h0 : patMatch p (c :: cs) = false := by simpa using h 0
      simp only [reSubP, h0, Bool.false_eq_true, if_false]
      rw [ih cs (fun i => by simpa [List.drop_succ_cons] using h (i + 1))]

/-- Auxiliary invariant for `reSubP`: a pattern suffix `q.drop j` that fails
on the input keeps failing on the output, provided every pattern suffix is
incompatible with the replacement (an occurrence started in untouched text
can neither complete in untouched text nor continue into a replacement). -/
theorem reSubP_keep_aux (q p : List (Char → Bool)) (rep : List Char)
    (H2 : ∀ j, j < q.length → patCompat (List.drop j q) rep = false) :
    ∀ (fuel : Nat) (l : List Char) (j : Nat), j < q.length →
      patMatch (List.drop j q) l = false →
      patMatch (List.drop j q) (reSubP p rep fuel l) = false := by
  intro fuel
  induction fuel with
  | zero => intro l j _ hside; exact hside
  | succ f ih =>
    intro l j hj hside
    cases l with
    | nil =>
      have hne : 0 < (List.drop j q).length := by
        rw [List.length_drop]; omega
      simpa [reSubP] using patMatch_nil _ hne
    | cons c cs =>
      by_cases hfire : patMatch p (c :: cs) = true
      · rw [show reSubP p rep (f + 1) (c :: cs) =
            rep ++ reSubP p rep f (List.drop p.length (c :: cs)) from by
          simp [reSubP, hfire]]
        exact patMatch_append_eq_false _ _ _ (H2 j hj)
      · have hfire' : patMatch p (c :: cs) = false := by simpa using hfire
        rw [show reSubP p rep (f + 1) (c :: cs) = c :: reSubP p rep f cs from by
          simp [reSubP, hfire']]
        cases hqd : List.drop j q with
        | nil =>
          exfalso
          rw [List.drop_eq_nil_iff] at hqd
          omega
        | cons qf qrest =>
          have hq1 : List.drop (j + 1) q = qrest := by
            rw [← List.tail_drop, hqd]
            rfl
          rw [hqd] at hside
          by_cases hqc : qf c = true
          · simp only [patMatch, hqc, Bool.true_and] at hside
            cases hqr : qrest with
            | nil =>
              rw [hqr] at hside
              simp [patMatch] at hside
            | cons a as =>
              have hj1 : j + 1 < q.length := by
                have hlen := List.length_drop (j + 1) q
                rw [hq1, hqr] at hlen
                simp [List.length_cons] at hlen
                omega
              have hrec := ih cs (j + 1) hj1 (by rw [hq1, hqr]; rw [hqr] at hside; exact hside)
              rw [hq1, hqr] at hrec
              simp [patMatch, hqc, hqr, hrec]
          · have hqc' : qf c = false := by simpa using hqc
            simp [patMatch, hqc']

/-- Master lemma for `reSubP`: if the pattern `q` is incompatible with every
suffix of the replacement and every suffix of `q` is incompatible with the
replacement, and every `q`-occurrence of the input is a `p`-occurrence, then
`q` occurs nowhere in the output.  With `q = p` this is completeness of the
substitution; with an input free of `q` it is preservation of absence. -/
theorem reSubP_no_occur (q p : List (Char → Bool)) (rep : List Char)
    (hp : 0 < p.length) (hq : 0 < q.length)
    (H1 : ∀ o, o < rep.length → patCompat q (List.drop o rep) = false)
    (H2 : ∀ j, j < q.length → patCompat (List.drop j q) rep = false) :
    ∀ (fuel : Nat) (l : List Char), l.length ≤ fuel →
      (∀ i, patMatch q (List.drop i l) = true → patMatch p (List.drop i l) = true) →
      ∀ i, patMatch q (List.drop i (reSubP p rep fuel l)) = false := by
  intro fuel
  induction fuel with
  | zero =>
    intro l hl _ i
    have : l = [] := List.length_eq_zero.mp (Nat.le_zero.mp hl)
    subst this
    simpa [reSubP] using patMatch_nil q hq
  | succ f ih =>
    intro l hl hin i
    cases l with
    | nil => simpa [reSubP] using patMatch_nil q hq
    | cons c cs =>
      by_cases hfire : patMatch p (c :: cs) = true
      · rw [show reSubP p rep (f + 1) (c :: cs) =
            rep ++ reSubP p rep f (List.drop p.length (c :: cs)) from by
          simp [reSubP, hfire]]
        by_cases hi : i < rep.length
        · rw [List.drop_append_of_le_length (Nat.le_of_lt hi)]
          exact patMatch_append_eq_false _ _ _ (H1 i hi)
        · have hi' : i = rep.length + (i - rep.length) := by omega
          rw [hi', List.drop_append]
          apply ih
          · have hlen : (List.drop p.length (c :: cs)).length =
                (c :: cs).length - p.length := List.length_drop _ _
            rw [hlen]
            simp only [List.length_cons] at hl ⊢
            omega
          · intro i2 h2
            rw [List.drop_drop] at h2 ⊢
            exact hin _ h2
      · have hfire' : patMatch p (c :: cs) = false := by simpa using hfire
        rw [show reSubP p rep (f + 1) (c :: cs) = c :: reSubP p rep f cs from by
          simp [reSubP, hfire']]
        cases i with
        | zero =>
          have hside : patMatch q (c :: cs) = false := by
            cases hqm : patMatch q (c :: cs) with
            | false => rfl
            | true =>
              have hpm := hin 0 (by simpa using hqm)
              rw [List.drop_zero] at hpm
              exact absurd hpm (by simp [hfire'])
          have haux := reSubP_keep_aux q p rep H2 (f + 1) (c :: cs) 0 hq
            (by simpa using hside)
          rw [List.drop_zero] at haux
          rw [show reSubP p rep (f + 1) (c :: cs) = c :: reSubP p rep f cs from by
            simp [reSubP, hfire']] at haux
          simpa using haux
        | succ i' =>
          rw [List.drop_succ_cons]
          apply ih cs
          · simp only [List.length_cons] at hl
            omega
          · intro i2 h2
            have hsh := hin (i2 + 1)
            rw [List.drop_succ_cons] at hsh
            exact hsh h2

/-- `m1` fires only where the literal `<title` matches. -/
theorem m1_eq_none (l : List Char)
    (h : patMatch (litPat "<title") l = false) : m1 l = none := by
  unfold m1
  rw [if_neg (show ¬(litMatch "<title" l = true) from by
    rw [litMatch_eq_patMatch]; simp [h])]

/-- `m2` fires only where `currentColor` occurs. -/
theorem m2_eq_none (l : List Char)
    (hno : ∀ j, patMatch (litPat "currentColor") (List.drop j l) = false) :
    m2 l = none := by
  unfold m2
  by_cases h1 : (List.takeWhile isPySpace l).isEmpty = true
  · simp [h1]
  · by_cases h2 : litMatch "stroke=\"currentColor\""
        (List.drop (List.takeWhile isPySpace l).length l) = true
    · exfalso
      have hm : patMatch (litPat "stroke=\"currentColor\"")
          (List.drop (List.takeWhile isPySpace l).length l) = true := by
        rw [← litMatch_eq_patMatch]; exact h2
      have hsplit : litPat "stroke=\"currentColor\"" =
          litPat "stroke=\"" ++ (litPat "currentColor" ++ litPat "\"") := rfl
      rw [hsplit] at hm
      have hcc := patMatch_append_left _ _ _ (patMatch_append_drop _ _ _ hm)
      rw [List.drop_drop] at hcc
      exact absurd hcc (by simp [hno])
    · simp [h1, h2]

/-- `m3` fires only where `currentColor` occurs. -/
theorem m3_eq_none (l : List Char)
    (hno : ∀ j, patMatch (litPat "currentColor") (List.drop j l) = false) :
    m3 l = none := by
  unfold m3
  by_cases h0 : litMatch "<g" l = true
  · by_cases h1 : (List.takeWhile isPySpace (List.drop 2 l)).isEmpty = true
    · simp [h0, h1]
    · by_cases h2 : litMatch "stroke=\"currentColor\""
          (List.drop (List.takeWhile isPySpace (List.drop 2 l)).length (List.drop 2 l)) = true
      · exfalso
        have hm : patMatch (litPat "stroke=\"currentColor\"")
            (List.drop (List.takeWhile isPySpace (List.drop 2 l)).length
              (List.drop 2 l)) = true := by
          rw [← litMatch_eq_patMatch]; exact h2
        have hsplit : litPat "stroke=\"currentColor\"" =
            litPat "stroke=\"" ++ (litPat "currentColor" ++ litPat "\"") := rfl
        rw [hsplit] at hm
        have hcc := patMatch_append_left _ _ _ (patMatch_append_drop _ _ _ hm)
        simp only [List.drop_drop] at hcc
        exact absurd hcc (by simp [hno])
      · rw [List.drop_drop] at h2
        simp [h0, h1, h2]
  · simp [h0]

/-- The first three passes of `_improve_svg_for_manim` are the identity when
`<title` and `currentColor` occur nowhere, so the result is just the two
fixed-shape substitutions. -/
theorem improve_svg_eq_of_no_triggers (s : String)
    (hti : ∀ i, patMatch (litPat "<title") (List.drop i s.toList) = false)
    (hcc : ∀ i, patMatch (litPat "currentColor") (List.drop i s.toList) = false) :
    _improve_svg_for_manim s =
      ⟨reSubP patSW1 sw2Rep
        (reSubP patFill fillRep s.toList.length s.toList).length
        (reSubP patFill fillRep s.toList.length s.toList)⟩ := by
  have e1 : reSub m1 s.toList.length s.toList = s.toList :=
    reSub_id m1 _ _ (fun i => m1_eq_none _ (hti i))
  have e2 : reSub m2 s.toList.length s.toList = s.toList :=
    reSub_id m2 _ _ (fun i => m2_eq_none _ (fun j => by
      rw [List.drop_drop]; exact hcc (i + j)))
  have e3 : reSub m3 s.toList.length s.toList = s.toList :=
    reSub_id m3 _ _ (fun i => m3_eq_none _ (fun j => by
      rw [List.drop_drop]; exact hcc (i + j)))
  simp only [_improve_svg_for_manim, e1, e2, e3]

/-- `_improve_svg_for_manim` is the identity on a string in which none of its
five patterns can fire. -/
theorem improve_svg_id_of_clean (s : String)
    (hti : ∀ i, patMatch (litPat "<title") (List.drop i s.toList) = false)
    (hcc : ∀ i, patMatch (litPat "currentColor") (List.drop i s.toList) = false)
    (hfill : ∀ i, patMatch patFill (List.drop i s.toList) = false)
    (hsw : ∀ i, patMatch patSW1 (List.drop i s.toList) = false) :
    _improve_svg_for_manim s = s := by
  have e1 : reSub m1 s.toList.length s.toList = s.toList :=
    reSub_id m1 _ _ (fun i => m1_eq_none _ (hti i))
  have e2 : reSub m2 s.toList.length s.toList = s.toList :=
    reSub_id m2 _ _ (fun i => m2_eq_none _ (fun j => by
      rw [List.drop_drop]; exact hcc (i + j)))
  have e3 : reSub m3 s.toList.length s.toList = s.toList :=
    reSub_id m3 _ _ (fun i => m3_eq_none _ (fun j => by
      rw [List.drop_drop]; exact hcc (i + j)))
  have e4 : reSubP patFill fillRep s.toList.length s.toList = s.toList :=
    reSubP_id _ _ _ _ hfill
  have e5 : reSubP patSW1 sw2Rep s.toList.length s.toList = s.toList :=
    reSubP_id _ _ _ _ hsw
  simp only [_improve_svg_for_manim, e1, e2, e3, e4, e5]
  rfl

set_option maxRecDepth 10000 in
/-- C9 counterexample: `_improve_svg_for_manim` is not idempotent.  On
`"<tit<title>x</title>le>y</title>"` the first pass removes the inner title
element and thereby splices together a new one (`"<title>y</title>"`, which
is also a `<title>...</title>` element in the output), and a second pass
removes it. -/
theorem improve_svg_for_manim_not_idempotent :
    ¬ (_improve_svg_for_manim (_improve_svg_for_manim "<tit<title>x</title>le>y</title>") =
        _improve_svg_for_manim "<tit<title>x</title>le>y</title>") := by
  decide

/-- C9 (amended): on inputs free of `<title` and of `currentColor` — so that
removals cannot splice new matches together — `_improve_svg_for_manim` is
idempotent, and its output contains no `<title` (hence no
`<title>...</title>` element) and no `fill="#RRGGBB"` attribute with six hex
digits. -/
theorem improve_svg_for_manim_restricted_idempotent (s : String)
    (hti : occursPatB (litPat "<title") s.toList = false)
    (hcc : occursPatB (litPat "currentColor") s.toList = false) :
    _improve_svg_for_manim (_improve_svg_for_manim s) = _improve_svg_for_manim s ∧
    occursPatB (litPat "<title") (_improve_svg_for_manim s).toList = false ∧
    occursPatB patFill (_improve_svg_for_manim s).toList = false := by
  have hti' := (occursPatB_eq_false_iff _ _).mp hti
  have hcc' := (occursPatB_eq_false_iff _ _).mp hcc
  have himp := improve_svg_eq_of_no_triggers s hti' hcc'
  -- the intermediate list after the fill pass and the final list
  have h4fill : ∀ i, patMatch patFill
      (List.drop i (reSubP patFill fillRep s.toList.length s.toList)) = false :=
    reSubP_no_occur patFill patFill fillRep (by decide) (by decide)
      (by decide) (by decide) s.toList.length s.toList le_rfl (fun _ h => h)
  have h4ti : ∀ i, patMatch (litPat "<title")
      (List.drop i (reSubP patFill fillRep s.toList.length s.toList)) = false :=
    reSubP_no_occur (litPat "<title") patFill fillRep (by decide) (by decide)
      (by decide) (by decide) s.toList.length s.toList le_rfl
      (fun i h => absurd ((hti' i).symm.trans h) Bool.false_ne_true)
  have h4cc : ∀ i, patMatch (litPat "currentColor")
      (List.drop i (reSubP patFill fillRep s.toList.length s.toList)) = false :=
    reSubP_no_occur (litPat "currentColor") patFill fillRep (by decide) (by decide)
      (by decide) (by decide) s.toList.length s.toList le_rfl
      (fun i h => absurd ((hcc' i).symm.trans h) Bool.false_ne_true)
  have h5sw : ∀ i, patMatch patSW1
      (List.drop i (reSubP patSW1 sw2Rep
        (reSubP patFill fillRep s.toList.length s.toList).length
        (reSubP patFill fillRep s.toList.length s.toList))) = false :=
    reSubP_no_occur patSW1 patSW1 sw2Rep (by decide) (by decide)
      (by decide) (by decide) _ _ le_rfl (fun _ h => h)
  have h5fill : ∀ i, patMatch patFill
      (List.drop i (reSubP patSW1 sw2Rep
        (reSubP patFill fillRep s.toList.length s.toList).length
        (reSubP patFill fillRep s.toList.length s.toList))) = false :=
    reSubP_no_occur patFill patSW1 sw2Rep (by decide) (by decide)
      (by decide) (by decide) _ _ le_rfl
      (fun i h => absurd ((h4fill i).symm.trans h) Bool.false_ne_true)
  have h5ti : ∀ i, patMatch (litPat "<title")
      (List.drop i (reSubP patSW1 sw2Rep
        (reSubP patFill fillRep s.toList.length s.toList).length
        (reSubP patFill fillRep s.toList.length s.toList))) = false :=
    reSubP_no_occur (litPat "<title") patSW1 sw2Rep (by decide) (by decide)
      (by decide) (by decide) _ _ le_rfl
      (fun i h => absurd ((h4ti i).symm.trans h) Bool.false_ne_true)
  have h5cc : ∀ i, patMatch (litPat "currentColor")
      (List.drop i (reSubP patSW1 sw2Rep
        (reSubP patFill fillRep s.toList.length s.toList).length
        (reSubP patFill fillRep s.toList.length s.toList))) = false :=
    reSubP_no_occur (litPat "currentColor") patSW1 sw2Rep (by decide) (by decide)
      (by decide) (by decide) _ _ le_rfl
      (fun i h => absurd ((h4cc i).symm.trans h) Bool.false_ne_true)
  refine ⟨?_, ?_, ?_⟩
  · rw [himp]
    exact improve_svg_id_of_clean _ h5ti h5cc h5fill h5sw
  · rw [himp]
    exact (occursPatB_eq_false_iff _ _).mpr h5ti
  · rw [himp]
    exact (occursPatB_eq_false_iff _ _).mpr h5fill

set_option maxRecDepth 4000 in
/-- Witness for the amended C9 at a concrete input. -/
theorem improve_svg_for_manim_restricted_idempotent_witness :
    occursPatB (litPat "<title")
      ("<path fill=\"#FF0000\" stroke-width=\"1\"/>" : String).toList = false ∧
    occursPatB (litPat "currentColor")
      ("<path fill=\"#FF0000\" stroke-width=\"1\"/>" : String).toList = false ∧
    (_improve_svg_for_manim
        (_improve_svg_for_manim "<path fill=\"#FF0000\" stroke-width=\"1\"/>") =
      _improve_svg_for_manim "<path fill=\"#FF0000\" stroke-width=\"1\"/>" ∧
    occursPatB (litPat "<title")
      (_improve_svg_for_manim "<path fill=\"#FF0000\" stroke-width=\"1\"/>").toList = false ∧
    occursPatB patFill
      (_improve_svg_for_manim "<path fill=\"#FF0000\" stroke-width=\"1\"/>").toList = false) :=
  ⟨by decide, by decide,
   improve_svg_for_manim_restricted_idempotent "<path fill=\"#FF0000\" stroke-width=\"1\"/>"
     (by decide) (by decide)⟩
